import Mathlib

/-
Shallow embedding of the `xtask` developer-workflow dispatcher
(src/xtask/src/main.rs) of the harborshield repository.

Modelling conventions:
- Child-process execution is abstracted by a `ChildOutcome` parameter: the
  OS either fails to launch the tool (`launchFail`) or runs it to completion
  with an `ExitStatusM`.  The three executor functions `run_command`,
  `run_command_interactive` and `run_command_silent` are translated as pure
  functions from (tool, args, outcome) to `Except String ExitStatusM`,
  mirroring the Rust `Result<ExitStatus>` with `anyhow` messages built
  exactly as the source builds them.
- The `std::process::Command` construction shared by the three executors
  (working directory, stdio wiring) is modelled by `commandFor`, producing a
  `CommandSpec`; paths are lists of components, and `project_root` is the
  manifest directory with its last component popped, as in the source.
- Composite subcommands (`cmd_check`, `cmd_clean`, `cmd_restart`) return the
  list of invocations actually issued (the executed trace) together with the
  propagated `Result`, mirroring the `?`-operator control flow and the
  `let _ =`-discarded silent calls of the source.
-/

namespace Harborshield

/-- Execution mode of a child invocation: `captured` corresponds to
`run_command`, `interactive` to `run_command_interactive`, `silent` to
`run_command_silent`. -/
inductive Mode
  | captured
  | interactive
  | silent
deriving DecidableEq, Repr

/-- Model of `std::process::ExitStatus`: the numeric exit code.
`success` mirrors `ExitStatus::success()` (code zero), `display` mirrors the
`Display` rendering used by `format!("{}", status)`. -/
structure ExitStatusM where
  code : Int
deriving DecidableEq, Repr

def ExitStatusM.success (st : ExitStatusM) : Bool := st.code == 0

def ExitStatusM.display (st : ExitStatusM) : String :=
  "exit status: " ++ toString st.code

/-- What the OS did with a spawn request: failed to launch the binary, or ran
it to termination with a status. -/
inductive ChildOutcome
  | launchFail
  | exited (st : ExitStatusM)
deriving DecidableEq, Repr

/-- Message attached by `.with_context(|| format!("Failed to run: {} {}", cmd,
args.join(" ")))` on a launch failure. -/
def launchErrMsg (cmd : String) (args : List String) : String :=
  "Failed to run: " ++ cmd ++ " " ++ String.intercalate " " args

/-- Message produced by `anyhow::bail!("Command failed with status: {}", status)`
in `run_command` when the child exits non-zero. -/
def exitErrMsg (st : ExitStatusM) : String :=
  "Command failed with status: " ++ st.display

/-- Captured-mode executor `run_command`: launch failure is an error carrying
the literal command line; a non-success exit status is an error carrying the
status; otherwise the status is returned. -/
def run_command (cmd : String) (args : List String) (out : ChildOutcome) :
    Except String ExitStatusM :=
  match out with
  | .launchFail => .error (launchErrMsg cmd args)
  | .exited st => if st.success then .ok st else .error (exitErrMsg st)

/-- Interactive-mode executor `run_command_interactive`: launch failure is an
error; any exit status (zero or not) is returned as success. -/
def run_command_interactive (cmd : String) (args : List String)
    (out : ChildOutcome) : Except String ExitStatusM :=
  match out with
  | .launchFail => .error (launchErrMsg cmd args)
  | .exited st => .ok st

/-- Silent-mode executor `run_command_silent`: launch failure is an error; any
exit status (zero or not) is returned as success. -/
def run_command_silent (cmd : String) (args : List String)
    (out : ChildOutcome) : Except String ExitStatusM :=
  match out with
  | .launchFail => .error (launchErrMsg cmd args)
  | .exited st => .ok st

/-- Stdio wiring for one stream of the child process. -/
inductive StdioCfg
  | inheritParent
  | nullSink
deriving DecidableEq, Repr

/-- The `std::process::Command` value built by an executor, before the OS is
asked to run it.  `currentDir = none` would mean "inherit the caller's
working directory"; the executors always set it. -/
structure CommandSpec where
  tool : String
  args : List String
  currentDir : Option (List String)
  stdinCfg : StdioCfg
  stdoutCfg : StdioCfg
  stderrCfg : StdioCfg
deriving DecidableEq, Repr

/-- `project_root()`: start from the compile-time `CARGO_MANIFEST_DIR` path
and pop the last component (go up from `xtask/` to the project root). -/
def project_root (manifestDir : List String) : List String :=
  manifestDir.dropLast

/-- The `Command` construction shared by the three executors: tool, args,
`current_dir(project_root())`, and per-mode stdio wiring (`run_command` leaves
all streams at their inherited default, `run_command_interactive` explicitly
inherits all three, `run_command_silent` sends stdout and stderr to
`Stdio::null()`). -/
def commandFor (mode : Mode) (cmd : String) (args : List String)
    (manifestDir : List String) : CommandSpec :=
  { tool := cmd
    args := args
    currentDir := some (project_root manifestDir)
    stdinCfg := .inheritParent
    stdoutCfg := match mode with | .silent => .nullSink | _ => .inheritParent
    stderrCfg := match mode with | .silent => .nullSink | _ => .inheritParent }

/-- Working directory the child actually runs in: the `Command`'s configured
directory if set, otherwise the calling process's current directory. -/
def effectiveCwd (c : CommandSpec) (callerCwd : List String) : List String :=
  c.currentDir.getD callerCwd

/-- One issued external invocation: tool name, argument vector, executor mode. -/
structure Invocation where
  tool : String
  args : List String
  mode : Mode
deriving DecidableEq, Repr

/-- Argument vector built by `cmd_dev`: compose base, optional test profile
before `up`, optional `--build` after `up`, always `-d` last. -/
def cmd_dev_args (build test : Bool) : List String :=
  ((["compose", "-f", "docker-compose.dev.yml"]
      ++ (if test then ["--profile", "test"] else []))
    ++ ["up"])
  ++ ((if build then ["--build"] else []) ++ ["-d"])

/-- Shell command string composed by `cmd_run` from the release/watch flags. -/
def cmd_run_shell (release watch : Bool) : String :=
  if watch then
    if release then
      "cargo watch -x \x27build --release\x27 -s \x27./target/release/harborshield --data-dir /data --debug\x27"
    else
      "cargo watch -x \x27build\x27 -s \x27./target/debug/harborshield --data-dir /data --debug\x27"
  else
    if release then
      "cargo build --release && ./target/release/harborshield --data-dir /data --debug"
    else
      "cargo build && ./target/debug/harborshield --data-dir /data --debug"

/-- Full invocation issued by `cmd_run` (interactive `docker exec … bash -c`). -/
def cmd_run_invocation (release watch : Bool) : Invocation :=
  ⟨"docker",
   ["exec", "-it", "harborshield-dev", "bash", "-c", cmd_run_shell release watch],
   .interactive⟩

/-- Argument vector built by `cmd_test`: `--lib` when `unit` is set, else the
`-- --ignored` pair when `ignored` is set, else nothing extra. -/
def cmd_test_args (ignored unit : Bool) : List String :=
  ["test"] ++
    (if unit then ["--lib"]
     else if ignored then ["--", "--ignored"]
     else [])

/-- Format-step arguments of `cmd_check`. -/
def fmt_args (fix : Bool) : List String :=
  if fix then ["fmt"] else ["fmt", "--check"]

/-- Clippy-step arguments of `cmd_check`. -/
def clippy_args (fix : Bool) : List String :=
  (["clippy", "--all-targets", "--all-features"]
    ++ (if fix then ["--fix", "--allow-dirty"] else []))
  ++ ["--", "-D", "warnings"]

/-- `cmd_check`: run format, clippy, test in sequence through `run_command`,
each followed by `?`, so the trace stops at the first failure.  `env` gives
the child outcome of each (tool, args) invocation. -/
def cmd_check (fix : Bool) (env : String → List String → ChildOutcome) :
    List Invocation × Except String Unit :=
  let i1 : Invocation := ⟨"cargo", fmt_args fix, .captured⟩
  match run_command "cargo" (fmt_args fix) (env "cargo" (fmt_args fix)) with
  | .error e => ([i1], .error e)
  | .ok _ =>
    let i2 : Invocation := ⟨"cargo", clippy_args fix, .captured⟩
    match run_command "cargo" (clippy_args fix) (env "cargo" (clippy_args fix)) with
    | .error e => ([i1, i2], .error e)
    | .ok _ =>
      let i3 : Invocation := ⟨"cargo", ["test"], .captured⟩
      match run_command "cargo" ["test"] (env "cargo" ["test"]) with
      | .error e => ([i1, i2, i3], .error e)
      | .ok _ => ([i1, i2, i3], .ok ())

/-- Compose-down argument vector of `cmd_clean`, with optional `-v`. -/
def clean_down_args (volumes : Bool) : List String :=
  ["compose", "-f", "docker-compose.dev.yml", "down"]
    ++ (if volumes then ["-v"] else [])

/-- Forced-removal argument vector of `cmd_clean`. -/
def clean_rm_args : List String :=
  ["rm", "-f", "harborshield-dev", "test-nginx"]

/-- `cmd_clean`: captured compose-down (propagated with `?`), then a silent
forced removal whose `Result` is discarded with `let _ =`. -/
def cmd_clean (volumes : Bool) (downOut rmOut : ChildOutcome) :
    List Invocation × Except String Unit :=
  let i1 : Invocation := ⟨"docker", clean_down_args volumes, .captured⟩
  match run_command "docker" (clean_down_args volumes) downOut with
  | .error e => ([i1], .error e)
  | .ok _ =>
    let i2 : Invocation := ⟨"docker", clean_rm_args, .silent⟩
    let _ := run_command_silent "docker" clean_rm_args rmOut
    ([i1, i2], .ok ())

/-- Compose-down argument vector shared by `cmd_stop` and `cmd_restart`. -/
def compose_down_args : List String :=
  ["compose", "-f", "docker-compose.dev.yml", "down"]

/-- Rebuild-and-up argument vector of `cmd_restart`. -/
def restart_up_args : List String :=
  ["compose", "-f", "docker-compose.dev.yml", "up", "--build", "-d"]

/-- `cmd_restart`: silent best-effort compose-down (result discarded), then a
captured rebuild-and-up propagated with `?`. -/
def cmd_restart (downOut upOut : ChildOutcome) :
    List Invocation × Except String Unit :=
  let i1 : Invocation := ⟨"docker", compose_down_args, .silent⟩
  let _ := run_command_silent "docker" compose_down_args downOut
  let i2 : Invocation := ⟨"docker", restart_up_args, .captured⟩
  match run_command "docker" restart_up_args upOut with
  | .error e => ([i1, i2], .error e)
  | .ok _ => ([i1, i2], .ok ())

/-- Does `hay` start with `needle`? (model of a leading substring match). -/
def startsWithL : List Char → List Char → Bool
  | [], _ => true
  | _ :: _, [] => false
  | a :: as, b :: bs => a == b && startsWithL as bs

/-- Does `hay` contain `needle` as a contiguous substring?  Models Rust's
`str::contains` used by the marker scan. -/
def containsSubstrL (needle : List Char) : List Char → Bool
  | [] => startsWithL needle []
  | c :: rest => startsWithL needle (c :: rest) || containsSubstrL needle rest

/-- Split a character sequence at every newline; always returns at least one
(possibly empty) segment. -/
def splitNl : List Char → List (List Char)
  | [] => [[]]
  | c :: rest =>
    if c = '\n' then [] :: splitNl rest
    else
      match splitNl rest with
      | [] => [[c]]
      | l :: ls => (c :: l) :: ls

/-- Drop the last segment when it is empty: a trailing newline does not open a
new line, and empty content has no lines. -/
def dropTrailEmpty (ls : List (List Char)) : List (List Char) :=
  if ls.getLast? = some [] then ls.dropLast else ls

/-- Strip one trailing carriage return, as `BufRead::lines` does. -/
def stripCr (l : List Char) : List Char :=
  if l.getLast? = some '\r' then l.dropLast else l

/-- Lines of a file's content, with the semantics of Rust's
`BufReader::lines` iterator: newline-separated, no line for a trailing
newline, trailing `\r` stripped. -/
def rustLines (content : List Char) : List (List Char) :=
  (dropTrailEmpty (splitNl content)).map stripCr

/-- The fixed configuration block appended by `cmd_setup_zed` (the Rust raw
string `ssh_config_entry`), as a character sequence. -/
def ssh_config_entry : List Char :=
  ("\n# HarborShield dev container\nHost harborshield-dev\n    HostName localhost\n    Port 2222\n    User root\n    StrictHostKeyChecking no\n    UserKnownHostsFile /dev/null\n").toList

/-- The marker substring scanned for: `"Host harborshield-dev"`. -/
def zedMarker : List Char := ("Host harborshield-dev").toList

/-- Environment outcomes for the fallible steps of `cmd_setup_zed`: `HOME`
resolution, `create_dir_all`, `File::open` for reading, `OpenOptions::open`
for appending, and `write_all`. -/
structure ZedEnv where
  homeOk : Bool
  dirOk : Bool
  readOk : Bool
  openOk : Bool
  writeOk : Bool
deriving DecidableEq, Repr

/-- Which message `cmd_setup_zed` prints about the config entry. -/
inductive ZedMsg
  | alreadyExists
  | added
deriving DecidableEq, Repr

/-- The `entry_exists` scan: line-by-line search of the opened file (if it
opened at all) for the marker substring. -/
def entry_exists (opened : Option (List Char)) : Bool :=
  match opened with
  | some content => (rustLines content).any (fun l => containsSubstrL zedMarker l)
  | none => false

/-- `cmd_setup_zed` over the config-file state (`none` = file absent):
resolve `HOME`, create the `.ssh` directory, scan for the marker (an
unopenable file counts as "no marker", per the `if let Ok(file)` pattern),
and either report the entry present or append the block.  Returns the
message and the resulting file content.  A `write_all` failure is modelled
as leaving the file unchanged (the claims examined only exercise successful
writes). -/
def cmd_setup_zed (env : ZedEnv) (file : Option (List Char)) :
    Except String (ZedMsg × Option (List Char)) :=
  if !env.homeOk then .error "Could not find HOME directory"
  else if !env.dirOk then .error "Failed to create .ssh directory"
  else
    let opened : Option (List Char) :=
      match file with
      | some c => if env.readOk then some c else none
      | none => none
    if entry_exists opened then .ok (.alreadyExists, file)
    else if !env.openOk then .error "Failed to open ~/.ssh/config"
    else if !env.writeOk then .error "Failed to write to ~/.ssh/config"
    else .ok (.added, some (file.getD [] ++ ssh_config_entry))

/-- Number of lines of the config file containing the marker substring. -/
def markerCount (file : Option (List Char)) : Nat :=
  match file with
  | some content => (rustLines content).countP (fun l => containsSubstrL zedMarker l)
  | none => 0

/-- The part of `ssh_config_entry` after its leading newline. -/
def sshEntryTail : List Char :=
  ("# HarborShield dev container\nHost harborshield-dev\n    HostName localhost\n    Port 2222\n    User root\n    StrictHostKeyChecking no\n    UserKnownHostsFile /dev/null\n").toList

/-- The all-successful environment for `cmd_setup_zed`. -/
def zedEnvOk : ZedEnv := ⟨true, true, true, true, true⟩

/-- The config-file state after one successful run of `cmd_setup_zed`:
unchanged when the marker is found, otherwise the appended file. -/
def zedStep (file : Option (List Char)) : Option (List Char) :=
  if entry_exists file then file else some (file.getD [] ++ ssh_config_entry)

/-- Is a `Result` the error case? -/
def isErr {α : Type} : Except String α → Bool
  | .error _ => true
  | .ok _ => false

/-- Substring test lifted to `String`. -/
def strContains (needle hay : String) : Bool :=
  containsSubstrL needle.toList hay.toList

/-- Leading-substring test lifted to `String`. -/
def strStartsWith (p s : String) : Bool :=
  startsWithL p.toList s.toList

theorem startsWithL_self_append (n b : List Char) : startsWithL n (n ++ b) = true := by
  induction n with
  | nil => rfl
  | cons a as ih => simp [startsWithL, ih]

theorem containsSubstrL_of_startsWith (n hay : List Char)
    (h : startsWithL n hay = true) : containsSubstrL n hay = true := by
  cases hay with
  | nil => simpa [containsSubstrL] using h
  | cons c rest => simp [containsSubstrL, h]

theorem containsSubstrL_cons_of (n : List Char) (c : Char) (rest : List Char)
    (h : containsSubstrL n rest = true) : containsSubstrL n (c :: rest) = true := by
  simp [containsSubstrL, h]

theorem containsSubstrL_middle (a n b : List Char) :
    containsSubstrL n (a ++ (n ++ b)) = true := by
  induction a with
  | nil => exact containsSubstrL_of_startsWith n (n ++ b) (startsWithL_self_append n b)
  | cons c cs ih => exact containsSubstrL_cons_of n c (cs ++ (n ++ b)) ih

theorem strContains_middle (a n b : String) : strContains n (a ++ (n ++ b)) = true := by
  have h := containsSubstrL_middle a.toList n.toList b.toList
  simpa [strContains, String.toList] using h

theorem strContains_append_right (a n : String) : strContains n (a ++ n) = true := by
  have h := containsSubstrL_middle a.toList n.toList []
  simpa [strContains, String.toList] using h

/-- C1 counterexample: at tool `"docker"`, arguments `["ps"]` and exit code 1,
the Captured-mode error message is exactly `"Command failed with status: exit
status: 1"`, which contains neither the tool name `"docker"` nor the command
line `"docker ps"` — so the reported error does not carry the literal command
line, contrary to the claim. -/
theorem C1_counterexample :
    run_command "docker" ["ps"] (ChildOutcome.exited ⟨1⟩) =
      .error "Command failed with status: exit status: 1" ∧
    strContains "docker" "Command failed with status: exit status: 1" = false ∧
    strContains "docker ps" "Command failed with status: exit status: 1" = false := by
  exact ⟨rfl, by decide, by decide⟩

/-- C1 (amended): a Captured-mode invocation returns an error iff the child
fails to launch or exits with non-zero status; on a non-zero exit the reported
error carries the exit status (but not the command line); on a launch failure
the reported error carries the literal command line. -/
theorem C1_captured_error_semantics (cmd : String) (args : List String)
    (out : ChildOutcome) :
    (isErr (run_command cmd args out) = true ↔
      out = ChildOutcome.launchFail ∨
        ∃ st, out = ChildOutcome.exited st ∧ st.code ≠ 0) ∧
    (∀ st, out = ChildOutcome.exited st → st.code ≠ 0 →
      run_command cmd args out = .error (exitErrMsg st) ∧
      strContains (toString st.code) (exitErrMsg st) = true) ∧
    (out = ChildOutcome.launchFail →
      run_command cmd args out = .error (launchErrMsg cmd args) ∧
      strContains cmd (launchErrMsg cmd args) = true) := by
  refine ⟨?_, ?_, ?_⟩
  · cases out with
    | launchFail => simp [run_command, isErr]
    | exited st =>
      by_cases h : st.code = 0
      · simp [run_command, isErr, ExitStatusM.success, h]
      · simp [run_command, isErr, ExitStatusM.success, h]
  · intro st hst hcode
    subst hst
    refine ⟨by simp [run_command, ExitStatusM.success, hcode], ?_⟩
    have h2 : exitErrMsg st =
        "Command failed with status: exit status: " ++ toString st.code := by
      show "Command failed with status: " ++ ("exit status: " ++ toString st.code) = _
      rw [← String.append_assoc]
      rfl
    rw [h2]
    exact strContains_append_right _ _
  · intro h
    subst h
    refine ⟨rfl, ?_⟩
    have h3 : launchErrMsg cmd args =
        "Failed to run: " ++ (cmd ++ (" " ++ String.intercalate " " args)) := by
      simp [launchErrMsg, String.append_assoc]
    rw [h3]
    exact strContains_middle _ _ _

/-- Witness for C1: the amended theorem applied at tool `"docker"`, arguments
`["ps"]`, exit code 1. -/
theorem C1_captured_error_semantics_witness :
    run_command "docker" ["ps"] (ChildOutcome.exited ⟨1⟩) = .error (exitErrMsg ⟨1⟩) ∧
    strContains (toString (1 : Int)) (exitErrMsg ⟨1⟩) = true :=
  (C1_captured_error_semantics "docker" ["ps"] (ChildOutcome.exited ⟨1⟩)).2.1
    ⟨1⟩ rfl (by decide)

/-- C2 (confirmed): Silent-mode and Interactive-mode invocations succeed on
every exit status and error only on launch failure; the result of the Silent
removal inside `cmd_clean`, and of the Silent teardown inside `cmd_restart`,
never affects the subcommand's reported result. -/
theorem C2_silent_interactive_error_semantics (cmd : String) (args : List String)
    (st : ExitStatusM) (volumes : Bool) (downOut rmOut rmOut' upOut : ChildOutcome) :
    run_command_silent cmd args (ChildOutcome.exited st) = .ok st ∧
    run_command_interactive cmd args (ChildOutcome.exited st) = .ok st ∧
    run_command_silent cmd args ChildOutcome.launchFail =
      .error (launchErrMsg cmd args) ∧
    run_command_interactive cmd args ChildOutcome.launchFail =
      .error (launchErrMsg cmd args) ∧
    (cmd_clean volumes downOut rmOut).2 = (cmd_clean volumes downOut rmOut').2 ∧
    (cmd_restart rmOut upOut).2 = (cmd_restart rmOut' upOut).2 := by
  refine ⟨rfl, rfl, rfl, rfl, ?_, ?_⟩
  · cases hr : run_command "docker" (clean_down_args volumes) downOut <;>
      simp [cmd_clean, hr]
  · cases hr : run_command "docker" restart_up_args upOut <;>
      simp [cmd_restart, hr]

/-- C3 (confirmed): the build-and-run subcommand selects exactly one of four
pairwise-distinct literal shell command strings according to the
{release, watch} matrix, and both watch variants start with the cargo-watch
prefix wrapping the build step. -/
theorem C3_run_shell_matrix :
    cmd_run_shell false false =
      "cargo build && ./target/debug/harborshield --data-dir /data --debug" ∧
    cmd_run_shell true false =
      "cargo build --release && ./target/release/harborshield --data-dir /data --debug" ∧
    cmd_run_shell false true =
      "cargo watch -x \x27build\x27 -s \x27./target/debug/harborshield --data-dir /data --debug\x27" ∧
    cmd_run_shell true true =
      "cargo watch -x \x27build --release\x27 -s \x27./target/release/harborshield --data-dir /data --debug\x27" ∧
    cmd_run_shell false false ≠ cmd_run_shell true false ∧
    cmd_run_shell false false ≠ cmd_run_shell false true ∧
    cmd_run_shell false false ≠ cmd_run_shell true true ∧
    cmd_run_shell true false ≠ cmd_run_shell false true ∧
    cmd_run_shell true false ≠ cmd_run_shell true true ∧
    cmd_run_shell false true ≠ cmd_run_shell true true ∧
    strStartsWith "cargo watch -x \x27build" (cmd_run_shell false true) = true ∧
    strStartsWith "cargo watch -x \x27build" (cmd_run_shell true true) = true := by
  decide

/-- C4 (confirmed): the test-running subcommand's argument vector is the
unit-only form whenever `unit` is set (regardless of `ignored`), else the
separator-plus-filter form when `ignored` is set, else bare `test`. -/
theorem C4_test_args_priority :
    cmd_test_args false true = ["test", "--lib"] ∧
    cmd_test_args true true = ["test", "--lib"] ∧
    cmd_test_args true false = ["test", "--", "--ignored"] ∧
    cmd_test_args false false = ["test"] := by
  decide

/-- C5 (confirmed): for every `fix` flag and every outcome environment, the
quality-check subcommand issues format, lint, test strictly in that order,
truncated at the first failure — in particular a format failure means lint and
test are never attempted — and it succeeds iff all three sub-invocations
succeed. -/
theorem C5_check_order_fail_fast (fix : Bool)
    (env : String → List String → ChildOutcome) :
    (cmd_check fix env).1 =
      ⟨"cargo", fmt_args fix, Mode.captured⟩ ::
        (cond (isErr (run_command "cargo" (fmt_args fix) (env "cargo" (fmt_args fix))))
          []
          (⟨"cargo", clippy_args fix, Mode.captured⟩ ::
            (cond (isErr (run_command "cargo" (clippy_args fix)
                (env "cargo" (clippy_args fix))))
              []
              [⟨"cargo", ["test"], Mode.captured⟩]))) ∧
    (isErr (run_command "cargo" (fmt_args fix) (env "cargo" (fmt_args fix))) = true →
      (cmd_check fix env).1 = [⟨"cargo", fmt_args fix, Mode.captured⟩] ∧
      isErr (cmd_check fix env).2 = true) ∧
    ((cmd_check fix env).2 = .ok () ↔
      isErr (run_command "cargo" (fmt_args fix) (env "cargo" (fmt_args fix))) = false ∧
      isErr (run_command "cargo" (clippy_args fix) (env "cargo" (clippy_args fix))) = false ∧
      isErr (run_command "cargo" ["test"] (env "cargo" ["test"])) = false) := by
  cases h1 : run_command "cargo" (fmt_args fix) (env "cargo" (fmt_args fix)) with
  | error e1 => simp [cmd_check, h1, isErr]
  | ok s1 =>
    cases h2 : run_command "cargo" (clippy_args fix) (env "cargo" (clippy_args fix)) with
    | error e2 => simp [cmd_check, h1, h2, isErr]
    | ok s2 =>
      cases h3 : run_command "cargo" ["test"] (env "cargo" ["test"]) with
      | error e3 => simp [cmd_check, h1, h2, h3, isErr]
      | ok s3 => simp [cmd_check, h1, h2, h3, isErr]

/-- Witness for C5: with every child failing to launch, the quality check
issues only the format step and reports failure. -/
theorem C5_check_order_fail_fast_witness :
    (cmd_check false (fun _ _ => ChildOutcome.launchFail)).1 =
      [⟨"cargo", fmt_args false, Mode.captured⟩] ∧
    isErr (cmd_check false (fun _ _ => ChildOutcome.launchFail)).2 = true :=
  (C5_check_order_fail_fast false (fun _ _ => ChildOutcome.launchFail)).2.1 rfl

/-- C7 (confirmed): the clean subcommand's compose-down vector is exactly the
base four-element vector, gaining a trailing `-v` when `volumes` is set; on a
successful compose-down it is followed by one Silent-mode forced removal of
the two fixed container names, and the removal's outcome never affects the
subcommand's result. -/
theorem C7_clean_vectors (rmOut rmOut' : ChildOutcome) (st : ExitStatusM) :
    clean_down_args false = ["compose", "-f", "docker-compose.dev.yml", "down"] ∧
    clean_down_args true = ["compose", "-f", "docker-compose.dev.yml", "down", "-v"] ∧
    (∀ volumes : Bool, st.code = 0 →
      (cmd_clean volumes (ChildOutcome.exited st) rmOut).1 =
        [⟨"docker", clean_down_args volumes, Mode.captured⟩,
         ⟨"docker", ["rm", "-f", "harborshield-dev", "test-nginx"], Mode.silent⟩] ∧
      (cmd_clean volumes (ChildOutcome.exited st) rmOut).2 = .ok ()) ∧
    (∀ (volumes : Bool) (downOut : ChildOutcome),
      (cmd_clean volumes downOut rmOut).2 = (cmd_clean volumes downOut rmOut').2) := by
  refine ⟨by decide, by decide, ?_, ?_⟩
  · intro volumes h
    constructor <;>
      simp [cmd_clean, run_command, ExitStatusM.success, h, clean_rm_args]
  · intro volumes downOut
    cases hr : run_command "docker" (clean_down_args volumes) downOut <;>
      simp [cmd_clean, hr]

/-- Witness for C7: a zero-status compose-down with volumes set, a non-zero
silent removal. -/
theorem C7_clean_vectors_witness :
    (cmd_clean true (ChildOutcome.exited ⟨0⟩) (ChildOutcome.exited ⟨5⟩)).1 =
      [⟨"docker", clean_down_args true, Mode.captured⟩,
       ⟨"docker", ["rm", "-f", "harborshield-dev", "test-nginx"], Mode.silent⟩] ∧
    (cmd_clean true (ChildOutcome.exited ⟨0⟩) (ChildOutcome.exited ⟨5⟩)).2 = .ok () :=
  ((C7_clean_vectors (ChildOutcome.exited ⟨5⟩) ChildOutcome.launchFail ⟨0⟩).2.2.1
    true rfl)

/-- C8 (confirmed): the environment-start argument vector always ends with the
detach flag `-d`; when the test flag is set it contains the profile selector
before the `up` keyword; when the rebuild flag is set it contains `--build`
after `up`. -/
theorem C8_dev_args_positions (build test : Bool) :
    (cmd_dev_args build test).getLast? = some "-d" ∧
    "up" ∈ cmd_dev_args build test ∧
    (test = true →
      "--profile" ∈ cmd_dev_args build test ∧
      List.indexOf "--profile" (cmd_dev_args build test) <
        List.indexOf "up" (cmd_dev_args build test)) ∧
    (build = true →
      "--build" ∈ cmd_dev_args build test ∧
      List.indexOf "up" (cmd_dev_args build test) <
        List.indexOf "--build" (cmd_dev_args build test)) := by
  cases build <;> cases test <;> decide

/-- Witness for C8: both flags set. -/
theorem C8_dev_args_positions_witness :
    "--profile" ∈ cmd_dev_args true true ∧
    List.indexOf "--profile" (cmd_dev_args true true) <
      List.indexOf "up" (cmd_dev_args true true) ∧
    "--build" ∈ cmd_dev_args true true ∧
    List.indexOf "up" (cmd_dev_args true true) <
      List.indexOf "--build" (cmd_dev_args true true) := by
  have h := C8_dev_args_positions true true
  exact ⟨(h.2.2.1 rfl).1, (h.2.2.1 rfl).2, (h.2.2.2 rfl).1, (h.2.2.2 rfl).2⟩

/-- C9 (confirmed): every `Command` built by the executors fixes its working
directory to the project root popped from the build-manifest directory, so the
effective working directory of the child is independent of the caller's
current directory. -/
theorem C9_working_directory (mode : Mode) (cmd : String) (args : List String)
    (manifestDir callerCwd callerCwd' : List String) :
    (commandFor mode cmd args manifestDir).currentDir =
      some (project_root manifestDir) ∧
    effectiveCwd (commandFor mode cmd args manifestDir) callerCwd =
      project_root manifestDir ∧
    effectiveCwd (commandFor mode cmd args manifestDir) callerCwd =
      effectiveCwd (commandFor mode cmd args manifestDir) callerCwd' := by
  refine ⟨rfl, rfl, rfl⟩

/-- C10 (confirmed): when the config file exists but opening it for reading
fails, `cmd_setup_zed` reports no error for the read: it treats the marker as
absent and appends the block (reporting "added"), taking the same branch as
when the file does not exist. -/
theorem C10_unreadable_treated_as_absent (c : List Char) :
    cmd_setup_zed ⟨true, true, false, true, true⟩ (some c) =
      .ok (ZedMsg.added, some (c ++ ssh_config_entry)) ∧
    cmd_setup_zed ⟨true, true, false, true, true⟩ none =
      .ok (ZedMsg.added, some ssh_config_entry) := by
  constructor
  · rfl
  · show Except.ok (ZedMsg.added, some ([] ++ ssh_config_entry)) = _
    rw [List.nil_append]

theorem splitNl_ne_nil (s : List Char) : splitNl s ≠ [] := by
  cases s with
  | nil => simp [splitNl]
  | cons c rest =>
    unfold splitNl
    by_cases h : c = '\n'
    · simp [h]
    · simp only [h, if_false]
      cases splitNl rest <;> simp

theorem splitNl_append_newline (s t : List Char) :
    splitNl (s ++ '\n' :: t) = splitNl s ++ splitNl t := by
  induction s with
  | nil => simp [splitNl]
  | cons c cs ih =>
    by_cases h : c = '\n'
    · subst h
      show splitNl ('\n' :: (cs ++ '\n' :: t)) = splitNl ('\n' :: cs) ++ splitNl t
      simp [splitNl, ih]
    · show splitNl (c :: (cs ++ '\n' :: t)) = splitNl (c :: cs) ++ splitNl t
      simp only [splitNl, if_neg h, ih]
      cases h2 : splitNl cs with
      | nil => exact absurd h2 (splitNl_ne_nil cs)
      | cons l ls => simp

theorem dropTrailEmpty_append (A B : List (List Char)) (hB : B ≠ []) :
    dropTrailEmpty (A ++ B) = A ++ dropTrailEmpty B := by
  unfold dropTrailEmpty
  have h1 : (A ++ B).getLast? = B.getLast? := by
    rw [List.getLast?_append]
    cases h : B.getLast? with
    | none => exact absurd (List.getLast?_eq_none_iff.mp h) hB
    | some x => rfl
  rw [h1]
  by_cases h2 : B.getLast? = some ([] : List Char)
  · simp only [h2, if_true, reduceIte]
    exact List.dropLast_append_of_ne_nil _ hB
  · simp [h2]

theorem countP_splitNl_eq_rustLines (p : List Char → Bool) (hp : p [] = false)
    (s : List Char) :
    ((splitNl s).map stripCr).countP p = (rustLines s).countP p := by
  unfold rustLines dropTrailEmpty
  by_cases h : (splitNl s).getLast? = some ([] : List Char)
  · rw [if_pos h]
    have hne : splitNl s ≠ [] := splitNl_ne_nil s
    have hlast : (splitNl s).getLast hne = [] := by
      have h2 := List.getLast?_eq_getLast (splitNl s) hne
      rw [h] at h2
      exact (Option.some_inj.mp h2).symm
    have hsplit : splitNl s = (splitNl s).dropLast ++ [([] : List Char)] := by
      conv_lhs => rw [← List.dropLast_concat_getLast hne]
      rw [hlast]
    conv_lhs => rw [hsplit]
    simp [List.countP_append, List.countP_cons, stripCr, hp]
  · rw [if_neg h]

theorem ssh_config_entry_eq : ssh_config_entry = '\n' :: sshEntryTail := rfl

theorem rustLines_append_entry (c : List Char) :
    rustLines (c ++ ssh_config_entry) =
      (splitNl c).map stripCr ++ rustLines sshEntryTail := by
  rw [ssh_config_entry_eq]
  unfold rustLines
  rw [splitNl_append_newline]
  rw [dropTrailEmpty_append _ _ (splitNl_ne_nil sshEntryTail)]
  rw [List.map_append]

theorem markerCount_append_entry (c : List Char) :
    markerCount (some (c ++ ssh_config_entry)) = markerCount (some c) + 1 := by
  show ((rustLines (c ++ ssh_config_entry)).countP fun l => containsSubstrL zedMarker l) = _
  rw [rustLines_append_entry, List.countP_append]
  have h1 : ((rustLines sshEntryTail).countP fun l => containsSubstrL zedMarker l) = 1 := by
    decide
  have h2 := countP_splitNl_eq_rustLines (fun l => containsSubstrL zedMarker l)
    (by decide) c
  rw [h1, h2]
  rfl

theorem entry_exists_iff (f : Option (List Char)) :
    entry_exists f = true ↔ 1 ≤ markerCount f := by
  cases f with
  | none => simp [entry_exists, markerCount]
  | some c =>
    show (rustLines c).any (fun l => containsSubstrL zedMarker l) = true ↔
      0 < (rustLines c).countP fun l => containsSubstrL zedMarker l
    rw [List.countP_pos_iff, List.any_eq_true]

theorem markerCount_getD (f : Option (List Char)) :
    markerCount (some (f.getD [])) = markerCount f := by
  cases f with
  | none => decide
  | some c => rfl

theorem zedStep_of_exists (f : Option (List Char)) (h : entry_exists f = true) :
    zedStep f = f := by
  simp [zedStep, h]

theorem cmd_setup_zed_zedEnvOk (f : Option (List Char)) :
    cmd_setup_zed zedEnvOk f =
      .ok ((if entry_exists f then ZedMsg.alreadyExists else ZedMsg.added),
        zedStep f) := by
  cases f with
  | none => simp [cmd_setup_zed, zedEnvOk, zedStep, entry_exists]
  | some c =>
    by_cases h : entry_exists (some c) = true
    · simp [cmd_setup_zed, zedEnvOk, zedStep, h]
    · simp only [Bool.not_eq_true] at h
      simp [cmd_setup_zed, zedEnvOk, zedStep, h]

theorem entry_exists_zedStep (f : Option (List Char)) :
    entry_exists (zedStep f) = true := by
  by_cases h : entry_exists f = true
  · rw [zedStep_of_exists f h]
    exact h
  · simp only [Bool.not_eq_true] at h
    rw [entry_exists_iff]
    simp only [zedStep, h, Bool.false_eq_true, if_false]
    rw [markerCount_append_entry, markerCount_getD]
    omega

/-- C6 counterexample: starting from a file that already contains the marker
line twice, a run of the setup-remote-config subcommand reports
"already exists" and leaves the file unchanged — so two sequential runs leave
two occurrences of the marker line, not exactly one as the claim states for
every starting file state. -/
theorem C6_counterexample :
    cmd_setup_zed zedEnvOk
        (some ("Host harborshield-dev\nHost harborshield-dev\n").toList) =
      .ok (ZedMsg.alreadyExists,
        some ("Host harborshield-dev\nHost harborshield-dev\n").toList) ∧
    markerCount (some ("Host harborshield-dev\nHost harborshield-dev\n").toList) = 2 := by
  exact ⟨rfl, by decide⟩

/-- C6 (amended): with home resolution, directory creation, reads and writes
all succeeding, two sequential runs of the setup-remote-config subcommand from
any starting file state leave the marker line present (at least once), the
second run reports that the entry already exists and performs no write, and
when the marker was initially absent the final file contains it exactly
once. -/
theorem C6_setup_zed_idempotent (file : Option (List Char)) :
    cmd_setup_zed zedEnvOk file =
      .ok ((if entry_exists file then ZedMsg.alreadyExists else ZedMsg.added),
        zedStep file) ∧
    cmd_setup_zed zedEnvOk (zedStep file) = .ok (ZedMsg.alreadyExists, zedStep file) ∧
    zedStep (zedStep file) = zedStep file ∧
    1 ≤ markerCount (zedStep file) ∧
    (markerCount file = 0 → markerCount (zedStep file) = 1) := by
  have hz := entry_exists_zedStep file
  have hzz := zedStep_of_exists (zedStep file) hz
  refine ⟨cmd_setup_zed_zedEnvOk file, ?_, hzz, ?_, ?_⟩
  · rw [cmd_setup_zed_zedEnvOk (zedStep file), hzz, hz]
    rfl
  · exact (entry_exists_iff _).mp hz
  · intro h0
    have hf : entry_exists file = false := by
      cases hef : entry_exists file with
      | false => rfl
      | true =>
        have h1 := (entry_exists_iff file).mp hef
        omega
    simp only [zedStep, hf, Bool.false_eq_true, if_false]
    rw [markerCount_append_entry, markerCount_getD, h0]

/-- Witness for C6: starting from a missing config file, the second run
reports the entry present, writes nothing, and the file holds the marker
exactly once. -/
theorem C6_setup_zed_idempotent_witness :
    cmd_setup_zed zedEnvOk (zedStep none) = .ok (ZedMsg.alreadyExists, zedStep none) ∧
    markerCount (zedStep (none : Option (List Char))) = 1 :=
  ⟨(C6_setup_zed_idempotent none).2.1,
   (C6_setup_zed_idempotent none).2.2.2.2 (by decide)⟩

end Harborshield
